import Mathlib

/-!
Shallow embedding of `backend/src/agent/document_processor.py` (class
`DocumentProcessor`) together with the record shapes from
`backend/src/agent/tools_and_schemas.py`.

External collaborators (the PyPDF2 / python-docx / pandas / aiofiles / PIL
libraries, Python's `json.loads`, and the hosted Gemini model reached through
`self.llm.invoke`) are modelled as oracle parameters (`FS`, `AnalyzerOracle`):
each oracle call either returns a value or an exception message, mirroring a
Python call that returns or raises.  Everything the module itself does —
type dispatch, string slicing, delimiter search, fallback records, exception
absorption — is translated directly from the source.
-/

namespace DocProc

/-- Python `s.find(c)`: index of the first occurrence of `c` in `s`,
or `-1` when absent.  (Helper recursion carrying the current index.) -/
def pyFindAux : List Char → Char → Nat → Int
  | [], _, _ => -1
  | c :: cs, t, i => if c = t then (i : Int) else pyFindAux cs t (i + 1)

/-- Python `s.find(c)` on a string. -/
def pyFind (s : String) (c : Char) : Int :=
  pyFindAux s.toList c 0

/-- Python `s.rfind(c)`: index of the last occurrence of `c` in `s`,
or `-1` when absent. -/
def pyRfind (s : String) (c : Char) : Int :=
  let l := s.toList
  let r := pyFindAux l.reverse c 0
  if r = -1 then -1 else ((l.length : Int) - 1) - r

/-- Python slice `s[a:b]` (step 1): negative indices count from the end,
out-of-range indices are clamped. -/
def pySlice (s : String) (a b : Int) : String :=
  let n : Int := (s.toList.length : Int)
  let lo : Int := if a < 0 then max (a + n) 0 else min a n
  let hi : Int := if b < 0 then max (b + n) 0 else min b n
  ((s.toList.take hi.toNat).drop lo.toNat).asString

/-- Python `sub in s` substring test (decidable contiguous-sublist check). -/
def pyIn (sub s : String) : Bool :=
  decide (sub.toList <:+: s.toList)

/-- Python `s.lower()` (ASCII case folding, which is all the MIME strings of
the dispatcher exercise). -/
def pyLower (s : String) : String :=
  (s.toList.map Char.toLower).asString

/-- Python `", ".join(l)`-style join: separator between elements only. -/
def pyJoin (sep : String) : List String → String
  | [] => ""
  | [a] => a
  | a :: b :: rest => a ++ sep ++ pyJoin sep (b :: rest)

/-- `sub` occurs as a contiguous substring of `s` (specification-level
counterpart of `pyIn`). -/
def occursIn (sub s : String) : Prop :=
  sub.toList <:+: s.toList

/-- `tools_and_schemas.FileUpload`. -/
structure FileUpload where
  filename : String
  content_type : String
  file_size : Nat
  file_path : String

/-- `tools_and_schemas.DocumentAnalysis` (a fully validated instance:
pydantic guarantees `summary : str` and the two list fields hold strings). -/
structure DocumentAnalysis where
  document_type : String
  summary : String
  key_insights : List String
  questions_answered : List String
deriving DecidableEq, Repr

/-- A JSON value as produced by Python's `json.loads`.  Objects are finite
key/value lists (first binding wins on lookup, standing for the dict). -/
inductive JsonValue where
  | str (s : String)
  | num (n : Int)
  | bool (b : Bool)
  | null
  | arr (elems : List JsonValue)
  | obj (fields : List (String × JsonValue))
deriving Repr

/-- Abstraction of a `pandas.DataFrame` as far as `_process_csv` observes it:
`dtypes` lists the `(column, dtype)` pairs of `df.dtypes.items()` (in column
order, so the column names are `dtypes.map Prod.fst`… kept separate as
`columns` for `df.columns.tolist()`), `headStr` is `df.head().to_string()`,
`numericCols` is `df.select_dtypes(include=["number"]).columns` and
`describeStr` the rendered `describe()` table. -/
structure DataFrame where
  columns : List String
  dtypes : List (String × String)
  nrows : Nat
  headStr : String
  numericCols : List String
  describeStr : String

/-- Abstraction of a `PIL.Image` as far as `_process_image` observes it. -/
structure ImgInfo where
  format : String
  width : Nat
  height : Nat
  mode : String

/-- Oracle for the filesystem together with the parsing libraries.  Each
field models one library call chain made by an extractor: a `.ok` result is
what the library hands back for that path, a `.error` result is the message
of the exception it raises (missing file, corrupt content, decode error…).
`readPdf` yields the `page.extract_text()` results in document order;
`readDocx` yields the `paragraph.text` list; `readTxt` yields the
UTF-8-decoded file contents. -/
structure FS where
  readPdf : String → Except String (List String)
  readDocx : String → Except String (List String)
  readCsv : String → Except String DataFrame
  readTxt : String → Except String String
  readImage : String → Except String ImgInfo

/-- Oracle for `_analyze_content`'s two external calls: `invoke` maps the
prompt to the model response text (`response.content`) or an exception, and
`jsonLoads` models Python's `json.loads` (total on strings: a valid JSON
document parses, anything else raises). -/
structure AnalyzerOracle where
  invoke : String → Except String String
  jsonLoads : String → Except String JsonValue

/-- `DocumentProcessor._get_document_type` (document_processor.py lines
68-81): case-insensitive substring checks in fixed priority order. -/
def getDocumentType (content_type : String) : String :=
  if pyIn "pdf" (pyLower content_type) then "PDF"
  else if pyIn "word" (pyLower content_type) || pyIn "docx" (pyLower content_type) then "DOCX"
  else if pyIn "csv" (pyLower content_type) then "CSV"
  else if pyIn "text" (pyLower content_type) then "TXT"
  else if pyIn "image" (pyLower content_type) then "IMAGE"
  else "UNKNOWN"

/-- The text accumulated by `_process_pdf`'s page loop when started from the
empty string: each page contributes its extracted text followed by `"\n"`. -/
def joinPages : List String → String
  | [] => ""
  | p :: ps => p ++ "\n" ++ joinPages ps

/-- `DocumentProcessor._process_pdf` (lines 83-93): `text` starts empty, the
loop appends `page.extract_text() + "\n"` per page; any exception is caught
and rendered as `"Error reading PDF: …"`. -/
def processPdf (fs : FS) (file_path : String) : String :=
  match fs.readPdf file_path with
  | .ok pages => pages.foldl (fun text page => text ++ page ++ "\n") ""
  | .error e => "Error reading PDF: " ++ e

/-- `DocumentProcessor._process_docx` (lines 95-102):
`"\n".join(paragraph.text for …)`, exceptions rendered as text. -/
def processDocx (fs : FS) (file_path : String) : String :=
  match fs.readDocx file_path with
  | .ok paras => pyJoin "\n" paras
  | .error e => "Error reading DOCX: " ++ e

/-- The text accumulated by `_process_csv`'s dtype loop when started from the
empty string: one `"- col: dtype\n"` line per `df.dtypes.items()` entry. -/
def dtypesLines : List (String × String) → String
  | [] => ""
  | cd :: rest => "- " ++ cd.1 ++ ": " ++ cd.2 ++ "\n" ++ dtypesLines rest

/-- `DocumentProcessor._process_csv` (lines 104-128): textual report with
row/column counts, column list, dtype lines, `head()` rendering and, when
numeric columns exist, the `describe()` rendering. -/
def processCsv (fs : FS) (file_path : String) : String :=
  match fs.readCsv file_path with
  | .ok df =>
    let summary1 := "CSV file with " ++ toString df.nrows ++ " rows and "
      ++ toString df.columns.length ++ " columns.\n"
    let summary2 := summary1 ++ "Columns: " ++ pyJoin ", " df.columns ++ "\n\n"
    let summary3 := summary2 ++ "Column data types:\n"
    let summary4 := df.dtypes.foldl
      (fun s cd => s ++ "- " ++ cd.1 ++ ": " ++ cd.2 ++ "\n") summary3
    let summary5 := summary4 ++ "\nFirst 5 rows:\n" ++ df.headStr ++ "\n"
    if df.numericCols.length > 0 then
      summary5 ++ "\nNumeric column statistics:\n" ++ df.describeStr ++ "\n"
    else
      summary5
  | .error e => "Error reading CSV: " ++ e

/-- `DocumentProcessor._process_txt` (lines 130-137): the decoded file
contents verbatim, exceptions rendered as text. -/
def processTxt (fs : FS) (file_path : String) : String :=
  match fs.readTxt file_path with
  | .ok text => text
  | .error e => "Error reading TXT: " ++ e

/-- `DocumentProcessor._process_image` (lines 139-148): a one-line metadata
description (Python renders `img.size` as the tuple `(w, h)`). -/
def processImage (fs : FS) (file_path : String) : String :=
  match fs.readImage file_path with
  | .ok img =>
    "Image file: " ++ img.format ++ ", Size: (" ++ toString img.width ++ ", "
      ++ toString img.height ++ "), Mode: " ++ img.mode
  | .error e => "Error processing image: " ++ e

/-- The f-string prompt built by `_analyze_content` (lines 153-169); literal
braces of the JSON template are the rendering of the `{{`/`}}` escapes, and
`content` is truncated to its first 4000 characters by `content[:4000]`. -/
def analysisPrompt (content document_type : String) : String :=
  "\n        Analyze the following " ++ document_type
    ++ " document content and provide:\n        \n        "
    ++ "1. A concise summary (2-3 sentences)\n        "
    ++ "2. 3-5 key insights or main points\n        "
    ++ "3. 3-5 questions that can be answered based on this content\n        "
    ++ "\n        Document content:\n        " ++ pySlice content 0 4000
    ++ "  # Limit content to avoid token limits\n        \n        "
    ++ "Please format your response as JSON with the following structure:\n        "
    ++ "\x7b\n            \"summary\": \"Brief summary here\",\n            "
    ++ "\"key_insights\": [\"insight 1\", \"insight 2\", \"insight 3\"],\n            "
    ++ "\"questions_answered\": [\"question 1\", \"question 2\", \"question 3\"]"
    ++ "\n        \x7d\n        "

/-- The fallback dict assigned when the delimiter check
`start_idx != -1 and end_idx != -1` fails (lines 187-192). -/
def delimiterFallback : JsonValue :=
  .obj [("summary", .str "Document analysis completed"),
        ("key_insights", .arr [.str "Content extracted successfully"]),
        ("questions_answered", .arr [.str "General questions about document content"])]

/-- The fallback dict returned by the `except` clause of `_analyze_content`
(lines 196-202). -/
def exceptionFallback (document_type : String) : JsonValue :=
  .obj [("summary", .str ("Analysis completed for " ++ document_type ++ " document")),
        ("key_insights", .arr [.str "Document processed successfully", .str "Content extracted"]),
        ("questions_answered", .arr [.str "What is the main topic?", .str "What are the key points?"])]

/-- `DocumentProcessor._analyze_content` (lines 150-202).  The model call and
`json.loads` are the two fallible oracle calls inside the `try`; the `except`
clause maps any of their exceptions to `exceptionFallback`.  Note
`end_idx = rfind + 1`, so a missing `'}'` gives `end_idx = 0`, which still
passes the `!= -1` test. -/
def analyzeContent (o : AnalyzerOracle) (content document_type : String) : JsonValue :=
  let analysis_prompt := analysisPrompt content document_type
  match o.invoke analysis_prompt with
  | .error _ => exceptionFallback document_type
  | .ok response_text =>
    let start_idx := pyFind response_text '{'
    let end_idx := pyRfind response_text '}' + 1
    if start_idx ≠ -1 ∧ end_idx ≠ -1 then
      match o.jsonLoads (pySlice response_text start_idx end_idx) with
      | .ok analysis => analysis
      | .error _ => exceptionFallback document_type
    else
      delimiterFallback

/-- Python subscript `analysis[k]` on the value returned by the analyzer:
a dict yields the binding or raises `KeyError(k)` (whose `str` is the
repr `'k'`); subscripting a non-dict with a string raises `TypeError`
(message abstracted). -/
def pyDictGetKey (v : JsonValue) (k : String) : Except String JsonValue :=
  match v with
  | .obj fields =>
    match fields.lookup k with
    | some x => Except.ok x
    | none => Except.error ("'" ++ k ++ "'")
  | _ => Except.error "object is not subscriptable with a string key"

/-- Pydantic validation of a `str` field of `DocumentAnalysis` (the exact
ValidationError message is abstracted). -/
def asStr : JsonValue → Except String String
  | .str s => Except.ok s
  | _ => Except.error "validation error for DocumentAnalysis"

/-- Pydantic validation of a `List[str]` field of `DocumentAnalysis`. -/
def asStrList : JsonValue → Except String (List String)
  | .arr elems => elems.mapM asStr
  | _ => Except.error "validation error for DocumentAnalysis"

/-- The extraction dispatch of `process_file` (lines 36-47): one branch per
recognized tag, the `else` branch raising
`ValueError(f"Unsupported document type: {document_type}")`. -/
def extractText (fs : FS) (document_type file_path : String) : Except String String :=
  if document_type = "PDF" then .ok (processPdf fs file_path)
  else if document_type = "DOCX" then .ok (processDocx fs file_path)
  else if document_type = "CSV" then .ok (processCsv fs file_path)
  else if document_type = "TXT" then .ok (processTxt fs file_path)
  else if document_type = "IMAGE" then .ok (processImage fs file_path)
  else .error ("Unsupported document type: " ++ document_type)

/-- The `try` body of `process_file` (lines 31-57): dispatch, analysis, the
three dict subscripts evaluated left-to-right, then pydantic field validation
of the `DocumentAnalysis` constructor call; the first exception aborts the
chain. -/
def tryBody (fs : FS) (o : AnalyzerOracle) (document_type file_path : String) :
    Except String DocumentAnalysis :=
  match extractText fs document_type file_path with
  | .error e => .error e
  | .ok extracted_text =>
    let analysis := analyzeContent o extracted_text document_type
    match pyDictGetKey analysis "summary" with
    | .error e => .error e
    | .ok sv =>
      match pyDictGetKey analysis "key_insights" with
      | .error e => .error e
      | .ok iv =>
        match pyDictGetKey analysis "questions_answered" with
        | .error e => .error e
        | .ok qv =>
          match asStr sv with
          | .error e => .error e
          | .ok summary =>
            match asStrList iv with
            | .error e => .error e
            | .ok key_insights =>
              match asStrList qv with
              | .error e => .error e
              | .ok questions_answered =>
                .ok { document_type := document_type, summary := summary,
                      key_insights := key_insights,
                      questions_answered := questions_answered }

/-- `DocumentProcessor.process_file` (lines 26-66): run the `try` body; the
`except` clause converts any exception `e` into the error-form record, with
`document_type or "UNKNOWN"` modelled as the emptiness test on the (always
assigned) classified tag. -/
def processFile (fs : FS) (o : AnalyzerOracle) (file_upload : FileUpload) : DocumentAnalysis :=
  let file_path := file_upload.file_path
  let content_type := file_upload.content_type
  let document_type := getDocumentType content_type
  match tryBody fs o document_type file_path with
  | .ok da => da
  | .error e =>
    { document_type := if document_type = "" then "UNKNOWN" else document_type,
      summary := "Error processing document: " ++ e,
      key_insights := ["Document processing failed"],
      questions_answered := ["Unable to analyze due to processing error"] }

/-- A syntactically valid JSON document that `json.loads` parses to
`sampleObj`; used to instantiate the oracles in concrete evaluations. -/
def sampleJsonStr : String :=
  "\x7b\"summary\": \"S\", \"key_insights\": [\"a\"], \"questions_answered\": [\"q\"]\x7d"

/-- The parse of `sampleJsonStr`. -/
def sampleObj : JsonValue :=
  .obj [("summary", .str "S"),
        ("key_insights", .arr [.str "a"]),
        ("questions_answered", .arr [.str "q"])]

/-- A concrete `json.loads` behaviour: parses the empty object and
`sampleJsonStr`, raises on everything else (in particular on `""`, which is
what CPython's `json.loads("")` does). -/
def jsonLoadsStub : String → Except String JsonValue := fun s =>
  if s = "\x7b\x7d" then Except.ok (.obj [])
  else if s = sampleJsonStr then Except.ok sampleObj
  else Except.error "Expecting value: line 1 column 1 (char 0)"

/-- A concrete analyzer oracle whose model always answers `resp`. -/
def stubOracle (resp : String) : AnalyzerOracle :=
  { invoke := fun _ => Except.ok resp, jsonLoads := jsonLoadsStub }

/-- A concrete data frame (4 rows, 2 columns, one numeric). -/
def sampleDF : DataFrame :=
  { columns := ["a", "b"], dtypes := [("a", "int64"), ("b", "object")],
    nrows := 4, headStr := "RENDERED HEAD", numericCols := ["a"],
    describeStr := "RENDERED DESCRIBE" }

/-- A concrete filesystem oracle in which every path reads successfully. -/
def stubFS : FS :=
  { readPdf := fun _ => Except.ok ["page one", ""],
    readDocx := fun _ => Except.ok ["para"],
    readCsv := fun _ => Except.ok sampleDF,
    readTxt := fun _ => Except.ok "hello",
    readImage := fun _ => Except.ok { format := "PNG", width := 2, height := 3, mode := "RGB" } }

/-- `String.toList` distributes over append (definitional). -/
theorem toList_append (a b : String) : (a ++ b).toList = a.toList ++ b.toList := rfl

/-- Every string occurs in itself. -/
theorem occursIn_refl (s : String) : occursIn s s :=
  ⟨[], [], by simp⟩

/-- Occurrence is preserved by appending on the left. -/
theorem occursIn_append_left (p a b : String) (h : occursIn p b) : occursIn p (a ++ b) := by
  obtain ⟨u, v, huv⟩ := h
  exact ⟨a.toList ++ u, v, by rw [toList_append, ← huv]; simp [List.append_assoc]⟩

/-- Occurrence is preserved by appending on the right. -/
theorem occursIn_append_right (p a b : String) (h : occursIn p a) : occursIn p (a ++ b) := by
  obtain ⟨u, v, huv⟩ := h
  exact ⟨u, v ++ b.toList, by rw [toList_append, ← huv]; simp [List.append_assoc]⟩

/-- Each element of a list occurs in its `join`. -/
theorem occursIn_pyJoin (sep c : String) : ∀ l : List String, c ∈ l → occursIn c (pyJoin sep l) := by
  intro l
  induction l with
  | nil => intro h; cases h
  | cons a rest ih =>
    intro h
    cases rest with
    | nil =>
      have hc : c = a := by simpa using h
      subst hc
      exact occursIn_refl c
    | cons b rest2 =>
      rcases List.mem_cons.mp h with hc | hc
      · subst hc
        exact occursIn_append_right _ _ _ (occursIn_append_right _ _ _ (occursIn_refl c))
      · exact occursIn_append_left _ _ _ (ih hc)

/-- The page loop of `_process_pdf` from an arbitrary accumulator. -/
theorem foldl_joinPages (pages : List String) : ∀ acc : String,
    pages.foldl (fun text page => text ++ page ++ "\n") acc = acc ++ joinPages pages := by
  induction pages with
  | nil => intro acc; simp [joinPages]
  | cons p ps ih =>
    intro acc
    simp only [List.foldl_cons, joinPages, ih]
    simp [String.append_assoc]

/-- `joinPages` distributes over list append. -/
theorem joinPages_append (xs ys : List String) :
    joinPages (xs ++ ys) = joinPages xs ++ joinPages ys := by
  induction xs with
  | nil => simp [joinPages]
  | cons p ps ih => simp [joinPages, ih, String.append_assoc]

/-- The dtype loop of `_process_csv` from an arbitrary accumulator. -/
theorem foldl_dtypesLines (l : List (String × String)) : ∀ acc : String,
    l.foldl (fun s cd => s ++ "- " ++ cd.1 ++ ": " ++ cd.2 ++ "\n") acc
      = acc ++ dtypesLines l := by
  induction l with
  | nil => intro acc; simp [dtypesLines]
  | cons cd rest ih =>
    intro acc
    simp only [List.foldl_cons, dtypesLines, ih]
    simp [String.append_assoc]

/-- Each entry's rendered line occurs in `dtypesLines`. -/
theorem occursIn_dtypesLines (cd : String × String) :
    ∀ l : List (String × String), cd ∈ l →
      occursIn ("- " ++ cd.1 ++ ": " ++ cd.2 ++ "\n") (dtypesLines l) := by
  intro l
  induction l with
  | nil => intro h; cases h
  | cons x xs ih =>
    intro h
    rcases List.mem_cons.mp h with hc | hc
    · subst hc
      exact occursIn_append_right _ _ _ (occursIn_refl _)
    · exact occursIn_append_left _ _ _ (ih hc)

/-- `pyFindAux` either fails or returns an index in `[i, i + length)`. -/
theorem pyFindAux_cases (t : Char) : ∀ (l : List Char) (i : Nat),
    pyFindAux l t i = -1 ∨
      ((i : Int) ≤ pyFindAux l t i ∧ pyFindAux l t i < (i : Int) + l.length) := by
  intro l
  induction l with
  | nil => intro i; left; rfl
  | cons a as ih =>
    intro i
    simp only [pyFindAux]
    by_cases hac : a = t
    · right
      simp only [hac, if_pos rfl]
      refine ⟨le_refl _, ?_⟩
      simp only [List.length_cons]
      push_cast
      omega
    · rcases ih (i + 1) with h | ⟨h1, h2⟩
      · left; simp [hac, h]
      · right
        simp only [if_neg hac]
        refine ⟨?_, ?_⟩
        · calc (i : Int) ≤ ((i + 1 : Nat) : Int) := by push_cast; omega
            _ ≤ _ := h1
        · simp only [List.length_cons]
          push_cast at h2 ⊢
          omega

/-- `rfind` never returns anything below `-1`. -/
theorem pyRfind_ge_neg_one (s : String) (c : Char) : -1 ≤ pyRfind s c := by
  unfold pyRfind
  rcases pyFindAux_cases c s.toList.reverse 0 with h | ⟨h1, h2⟩
  · rw [if_pos h]
  · have hne : pyFindAux s.toList.reverse c 0 ≠ -1 := by omega
    rw [if_neg hne]
    rw [List.length_reverse] at h2
    omega

/-- `end_idx = rfind + 1` always passes the `!= -1` test. -/
theorem pyRfind_add_one_ne (s : String) (c : Char) : pyRfind s c + 1 ≠ -1 := by
  have := pyRfind_ge_neg_one s c
  omega

/-- A Python slice with stop index `0` is empty. -/
theorem pySlice_stop_zero (s : String) (a : Int) : pySlice s a 0 = "" := by
  unfold pySlice
  have h0 : (if (0 : Int) < 0 then max (0 + (s.toList.length : Int)) 0
      else min 0 (s.toList.length : Int)).toNat = 0 := by
    simp
  simp [h0]
  rfl

/-- The dispatcher only ever emits the six recognized tags. -/
theorem getDocumentType_mem (s : String) :
    getDocumentType s ∈ (["PDF", "DOCX", "CSV", "TXT", "IMAGE", "UNKNOWN"] : List String) := by
  unfold getDocumentType
  repeat' split
  all_goals simp

/-- The dispatcher never emits the empty string. -/
theorem getDocumentType_ne_empty (s : String) : getDocumentType s ≠ "" := by
  intro he
  have h := getDocumentType_mem s
  rw [he] at h
  simp at h

/-- A successful `try` body carries the classified tag unchanged. -/
theorem tryBody_document_type (fs : FS) (o : AnalyzerOracle) (dt p : String)
    (da : DocumentAnalysis) (h : tryBody fs o dt p = .ok da) : da.document_type = dt := by
  unfold tryBody at h
  split at h
  · exact absurd h (by simp)
  · dsimp only at h
    split at h
    · exact absurd h (by simp)
    · split at h
      · exact absurd h (by simp)
      · split at h
        · exact absurd h (by simp)
        · split at h
          · exact absurd h (by simp)
          · split at h
            · exact absurd h (by simp)
            · split at h
              · exact absurd h (by simp)
              · injection h with h2
                rw [← h2]

/-- `process_file` reports exactly the classified tag, on success and on
failure alike. -/
theorem processFile_document_type (fs : FS) (o : AnalyzerOracle) (fu : FileUpload) :
    (processFile fs o fu).document_type = getDocumentType fu.content_type := by
  simp only [processFile]
  cases h : tryBody fs o (getDocumentType fu.content_type) fu.file_path with
  | ok da => simp [tryBody_document_type fs o _ _ da h]
  | error e => simp [getDocumentType_ne_empty fu.content_type]


/-- C1: `process_file` never raises for any input (it is a total function
into `DocumentAnalysis`, so every result is structurally complete), and its
`document_type` field is always one of the six recognized tags — over every
filesystem/library behaviour, every model behaviour, and every
`FileUpload`, including corrupt, missing or empty files (oracle `.error`
results) and arbitrary `content_type` strings. -/
theorem claim1_process_file_always_tagged (fs : FS) (o : AnalyzerOracle) (fu : FileUpload) :
    (processFile fs o fu).document_type
      ∈ (["PDF", "DOCX", "CSV", "TXT", "IMAGE", "UNKNOWN"] : List String) := by
  rw [processFile_document_type]
  exact getDocumentType_mem _

/-- C2 (counterexample): the claim says that when a delimiter is absent the
analyzer returns a fallback record whose canned strings reference the
document type.  At a concrete response with no `{` and no `}` the analyzer
returns `delimiterFallback`, whose strings are identical for document types
"PDF" and "CSV" and whose summary does not contain the document type at all —
so the record does not reference the document type. -/
theorem claim2_counterexample :
    analyzeContent (stubOracle "The document could not be summarised.") "" "PDF"
      = delimiterFallback
  ∧ analyzeContent (stubOracle "The document could not be summarised.") "" "PDF"
      = analyzeContent (stubOracle "The document could not be summarised.") "" "CSV"
  ∧ pyIn "PDF" "Document analysis completed" = false
  ∧ pyIn "pdf" "Document analysis completed" = false :=
  ⟨rfl, rfl, by decide, by decide⟩

/-- C2 (amended): if the `{` delimiter is absent the analyzer returns the
fixed `delimiterFallback` record (canned strings that do not reference the
document type); if `{` is present but parsing the slice raises, or the model
call itself raises, it returns the `exceptionFallback` record whose canned
summary references the document type.  In every case a record is returned —
`analyzeContent` is total, so no error propagates to the caller. -/
theorem claim2_fallback_paths (o : AnalyzerOracle) (content document_type resp : String) :
    (o.invoke (analysisPrompt content document_type) = .ok resp →
      pyFind resp '{' = -1 →
      analyzeContent o content document_type = delimiterFallback)
  ∧ (o.invoke (analysisPrompt content document_type) = .ok resp →
      pyFind resp '{' ≠ -1 →
      ∀ m, o.jsonLoads (pySlice resp (pyFind resp '{') (pyRfind resp '}' + 1)) = .error m →
      analyzeContent o content document_type = exceptionFallback document_type)
  ∧ (∀ m, o.invoke (analysisPrompt content document_type) = .error m →
      analyzeContent o content document_type = exceptionFallback document_type) := by
  refine ⟨?_, ?_, ?_⟩
  · intro hresp hstart
    unfold analyzeContent
    dsimp only
    rw [hresp]
    dsimp only
    rw [if_neg]
    intro hcond
    exact hcond.1 hstart
  · intro hresp hstart m hload
    unfold analyzeContent
    dsimp only
    rw [hresp]
    dsimp only
    rw [if_pos ⟨hstart, pyRfind_add_one_ne resp '}'⟩, hload]
  · intro m hresp
    unfold analyzeContent
    dsimp only
    rw [hresp]

/-- C2 witness: the delimiter-absent branch at a concrete response. -/
theorem claim2_fallback_paths_witness :
    (stubOracle "nothing structured").invoke (analysisPrompt "" "TXT")
      = .ok "nothing structured"
  ∧ pyFind "nothing structured" '{' = -1
  ∧ analyzeContent (stubOracle "nothing structured") "" "TXT" = delimiterFallback :=
  ⟨rfl, by decide,
   (claim2_fallback_paths (stubOracle "nothing structured") "" "TXT"
      "nothing structured").1 rfl (by decide)⟩

/-- C3: `_get_document_type` is total (a Lean function), decides by
case-insensitive substring containment in the fixed priority order
pdf → word/docx → csv → text → image → UNKNOWN; every string whose
lowercasing contains "pdf" maps to PDF, and on multiple matches the earliest
check wins (in particular csv before text before image). -/
theorem claim3_dispatcher_priority (s : String) :
    (pyIn "pdf" (pyLower s) = true → getDocumentType s = "PDF")
  ∧ (pyIn "pdf" (pyLower s) = false →
      (pyIn "word" (pyLower s) = true ∨ pyIn "docx" (pyLower s) = true) →
      getDocumentType s = "DOCX")
  ∧ (pyIn "pdf" (pyLower s) = false → pyIn "word" (pyLower s) = false →
      pyIn "docx" (pyLower s) = false → pyIn "csv" (pyLower s) = true →
      getDocumentType s = "CSV")
  ∧ (pyIn "pdf" (pyLower s) = false → pyIn "word" (pyLower s) = false →
      pyIn "docx" (pyLower s) = false → pyIn "csv" (pyLower s) = false →
      pyIn "text" (pyLower s) = true → getDocumentType s = "TXT")
  ∧ (pyIn "pdf" (pyLower s) = false → pyIn "word" (pyLower s) = false →
      pyIn "docx" (pyLower s) = false → pyIn "csv" (pyLower s) = false →
      pyIn "text" (pyLower s) = false → pyIn "image" (pyLower s) = true →
      getDocumentType s = "IMAGE")
  ∧ (pyIn "pdf" (pyLower s) = false → pyIn "word" (pyLower s) = false →
      pyIn "docx" (pyLower s) = false → pyIn "csv" (pyLower s) = false →
      pyIn "text" (pyLower s) = false → pyIn "image" (pyLower s) = false →
      getDocumentType s = "UNKNOWN") := by
  refine ⟨fun h1 => by simp [getDocumentType, h1],
          fun h1 h2 => ?_,
          fun h1 h2 h3 h4 => by simp [getDocumentType, h1, h2, h3, h4],
          fun h1 h2 h3 h4 h5 => by simp [getDocumentType, h1, h2, h3, h4, h5],
          fun h1 h2 h3 h4 h5 h6 => by simp [getDocumentType, h1, h2, h3, h4, h5, h6],
          fun h1 h2 h3 h4 h5 h6 => by simp [getDocumentType, h1, h2, h3, h4, h5, h6]⟩
  rcases h2 with h2 | h2 <;> simp [getDocumentType, h1, h2]

/-- C3 witness: "TEXT/cSv" contains both "text" and "csv" after
lowercasing; the earlier csv check wins. -/
theorem claim3_dispatcher_priority_witness :
    pyIn "pdf" (pyLower "TEXT/cSv") = false
  ∧ pyIn "word" (pyLower "TEXT/cSv") = false
  ∧ pyIn "docx" (pyLower "TEXT/cSv") = false
  ∧ pyIn "csv" (pyLower "TEXT/cSv") = true
  ∧ pyIn "text" (pyLower "TEXT/cSv") = true
  ∧ getDocumentType "TEXT/cSv" = "CSV" :=
  ⟨by decide, by decide, by decide, by decide, by decide,
   (claim3_dispatcher_priority "TEXT/cSv").2.2.1 (by decide) (by decide) (by decide) (by decide)⟩

/-- C4: when none of the six substrings occurs in the lowercased MIME
string, the dispatcher returns UNKNOWN and `process_file` returns the
error-form record whose summary embeds the `ValueError`'s string
representation, with the canned one-element insight and question lists. -/
theorem claim4_unknown_mime (fs : FS) (o : AnalyzerOracle) (fu : FileUpload)
    (h1 : pyIn "pdf" (pyLower fu.content_type) = false)
    (h2 : pyIn "word" (pyLower fu.content_type) = false)
    (h3 : pyIn "docx" (pyLower fu.content_type) = false)
    (h4 : pyIn "csv" (pyLower fu.content_type) = false)
    (h5 : pyIn "text" (pyLower fu.content_type) = false)
    (h6 : pyIn "image" (pyLower fu.content_type) = false) :
    getDocumentType fu.content_type = "UNKNOWN"
  ∧ processFile fs o fu =
      { document_type := "UNKNOWN",
        summary := "Error processing document: Unsupported document type: UNKNOWN",
        key_insights := ["Document processing failed"],
        questions_answered := ["Unable to analyze due to processing error"] } := by
  have hdt : getDocumentType fu.content_type = "UNKNOWN" := by
    simp [getDocumentType, h1, h2, h3, h4, h5, h6]
  have hbody : tryBody fs o "UNKNOWN" fu.file_path
      = .error "Unsupported document type: UNKNOWN" := by
    unfold tryBody extractText
    simp
  refine ⟨hdt, ?_⟩
  unfold processFile
  dsimp only
  rw [hdt, hbody]
  rfl

/-- C4 witness: the unrecognized MIME string "application/octet-stream". -/
theorem claim4_unknown_mime_witness :
    pyIn "pdf" (pyLower "application/octet-stream") = false
  ∧ pyIn "word" (pyLower "application/octet-stream") = false
  ∧ pyIn "docx" (pyLower "application/octet-stream") = false
  ∧ pyIn "csv" (pyLower "application/octet-stream") = false
  ∧ pyIn "text" (pyLower "application/octet-stream") = false
  ∧ pyIn "image" (pyLower "application/octet-stream") = false
  ∧ processFile stubFS (stubOracle "\x7b\x7d")
      { filename := "f", content_type := "application/octet-stream",
        file_size := 5, file_path := "p" } =
      { document_type := "UNKNOWN",
        summary := "Error processing document: Unsupported document type: UNKNOWN",
        key_insights := ["Document processing failed"],
        questions_answered := ["Unable to analyze due to processing error"] } :=
  ⟨by decide, by decide, by decide, by decide, by decide, by decide,
   (claim4_unknown_mime stubFS (stubOracle "\x7b\x7d")
      { filename := "f", content_type := "application/octet-stream",
        file_size := 5, file_path := "p" }
      (by decide) (by decide) (by decide) (by decide) (by decide) (by decide)).2⟩

/-- C5: when the model response parses — `invoke` returns `resp`, `resp`
contains a `{`, and `json.loads` of the slice between the first `{` and the
last `}` succeeds with an object carrying the three expected keys — the
analyzer returns exactly that parsed object, and its three fields are
exactly the parsed values, with no schema validation or alteration. -/
theorem claim5_parsed_object_verbatim (o : AnalyzerOracle)
    (content document_type resp : String) (flds : List (String × JsonValue))
    (sv iv qv : JsonValue)
    (hresp : o.invoke (analysisPrompt content document_type) = .ok resp)
    (hstart : pyFind resp '{' ≠ -1)
    (hparse : o.jsonLoads (pySlice resp (pyFind resp '{') (pyRfind resp '}' + 1))
      = .ok (.obj flds))
    (hs : flds.lookup "summary" = some sv)
    (hk : flds.lookup "key_insights" = some iv)
    (hq : flds.lookup "questions_answered" = some qv) :
    analyzeContent o content document_type = .obj flds
  ∧ pyDictGetKey (analyzeContent o content document_type) "summary" = .ok sv
  ∧ pyDictGetKey (analyzeContent o content document_type) "key_insights" = .ok iv
  ∧ pyDictGetKey (analyzeContent o content document_type) "questions_answered" = .ok qv := by
  have hmain : analyzeContent o content document_type = .obj flds := by
    unfold analyzeContent
    dsimp only
    rw [hresp]
    dsimp only
    rw [if_pos ⟨hstart, pyRfind_add_one_ne resp '}'⟩, hparse]
  exact ⟨hmain, by rw [hmain]; simp [pyDictGetKey, hs],
         by rw [hmain]; simp [pyDictGetKey, hk],
         by rw [hmain]; simp [pyDictGetKey, hq]⟩

/-- C5 witness: a response embedding a parseable object between noise. -/
theorem claim5_parsed_object_verbatim_witness :
    (stubOracle ("noise " ++ sampleJsonStr ++ " tail")).jsonLoads
      (pySlice ("noise " ++ sampleJsonStr ++ " tail")
        (pyFind ("noise " ++ sampleJsonStr ++ " tail") '{')
        (pyRfind ("noise " ++ sampleJsonStr ++ " tail") '}' + 1))
      = .ok (.obj [("summary", .str "S"),
                   ("key_insights", .arr [.str "a"]),
                   ("questions_answered", .arr [.str "q"])])
  ∧ analyzeContent (stubOracle ("noise " ++ sampleJsonStr ++ " tail")) "" "TXT"
      = .obj [("summary", .str "S"),
              ("key_insights", .arr [.str "a"]),
              ("questions_answered", .arr [.str "q"])] :=
  ⟨rfl,
   (claim5_parsed_object_verbatim (stubOracle ("noise " ++ sampleJsonStr ++ " tail"))
      "" "TXT" ("noise " ++ sampleJsonStr ++ " tail")
      [("summary", .str "S"), ("key_insights", .arr [.str "a"]),
       ("questions_answered", .arr [.str "q"])]
      (.str "S") (.arr [.str "a"]) (.arr [.str "q"])
      rfl (by decide) rfl rfl rfl rfl).1⟩

/-- C6: for a readable PDF (`readPdf` succeeds with the pages' extracted
texts) `_process_pdf` returns the concatenation in document order of each
page's text followed by a newline (`joinPages`); a page with no extractable
text contributes only the newline; on a read/parse failure the function
returns the error string instead of raising (it is total). -/
theorem claim6_pdf_extractor (fs : FS) (p : String) :
    (∀ pages, fs.readPdf p = .ok pages → processPdf fs p = joinPages pages)
  ∧ (∀ xs ys, fs.readPdf p = .ok (xs ++ "" :: ys) →
      processPdf fs p = joinPages xs ++ "\n" ++ joinPages ys)
  ∧ (∀ e, fs.readPdf p = .error e → processPdf fs p = "Error reading PDF: " ++ e) := by
  have h1 : ∀ pages, fs.readPdf p = .ok pages → processPdf fs p = joinPages pages := by
    intro pages h
    unfold processPdf
    rw [h]
    dsimp only
    rw [foldl_joinPages]
    exact String.empty_append _
  refine ⟨h1, ?_, ?_⟩
  · intro xs ys h
    rw [h1 _ h, joinPages_append]
    simp [joinPages, String.append_assoc, String.empty_append]
  · intro e h
    unfold processPdf
    rw [h]

/-- C6 witness: a two-page PDF whose second page has no extractable text. -/
theorem claim6_pdf_extractor_witness :
    stubFS.readPdf "doc.pdf" = .ok (["page one"] ++ "" :: [])
  ∧ processPdf stubFS "doc.pdf" = joinPages ["page one"] ++ "\n" ++ joinPages [] :=
  ⟨rfl, (claim6_pdf_extractor stubFS "doc.pdf").2.1 ["page one"] [] rfl⟩

/-- C8: for a readable UTF-8 text file, `_process_txt` returns the decoded
file contents verbatim — no truncation or transformation. -/
theorem claim8_txt_verbatim (fs : FS) (p text : String)
    (h : fs.readTxt p = .ok text) : processTxt fs p = text := by
  unfold processTxt
  rw [h]

/-- C8 witness. -/
theorem claim8_txt_verbatim_witness :
    stubFS.readTxt "a.txt" = .ok "hello" ∧ processTxt stubFS "a.txt" = "hello" :=
  ⟨rfl, claim8_txt_verbatim stubFS "a.txt" "hello" rfl⟩

/-- C10: a response with a `{` but no `}` does not take the delimiter-absent
branch: `end_idx = rfind + 1 = 0` still passes the `!= -1` test, the slice is
empty, `json.loads("")` raises, and the analyzer returns the exception-path
fallback, which differs from the delimiter-absent record. -/
theorem claim10_rbrace_absent (o : AnalyzerOracle)
    (content document_type resp m : String)
    (hresp : o.invoke (analysisPrompt content document_type) = .ok resp)
    (hstart : pyFind resp '{' ≠ -1)
    (hrf : pyRfind resp '}' = -1)
    (hload : o.jsonLoads "" = .error m) :
    analyzeContent o content document_type = exceptionFallback document_type
  ∧ exceptionFallback document_type ≠ delimiterFallback := by
  constructor
  · unfold analyzeContent
    dsimp only
    rw [hresp]
    dsimp only
    rw [if_pos ⟨hstart, pyRfind_add_one_ne resp '}'⟩, hrf]
    have hzero : (-1 : Int) + 1 = 0 := by norm_num
    rw [hzero, pySlice_stop_zero, hload]
  · intro hcontra
    simp [exceptionFallback, delimiterFallback] at hcontra

/-- C10 witness: a concrete response with `{` and no `}`. -/
theorem claim10_rbrace_absent_witness :
    pyFind "start \x7b unclosed" '{' ≠ -1
  ∧ pyRfind "start \x7b unclosed" '}' = -1
  ∧ jsonLoadsStub "" = .error "Expecting value: line 1 column 1 (char 0)"
  ∧ analyzeContent (stubOracle "start \x7b unclosed") "" "PDF" = exceptionFallback "PDF" :=
  ⟨by decide, by decide, rfl,
   (claim10_rbrace_absent (stubOracle "start \x7b unclosed") "" "PDF"
      "start \x7b unclosed" "Expecting value: line 1 column 1 (char 0)"
      rfl (by decide) (by decide) rfl).1⟩

/-- C9: if the parsed analysis dict lacks any of the three expected keys,
`_analyze_content` returns that incomplete dict unchanged, the subsequent
subscript in `process_file` raises `KeyError`, and the top-level handler
produces the error-form record — summary prefixed
`"Error processing document: '"` (the quote opening the `KeyError` repr) and
the handler's canned one-element lists, not either analyzer fallback. -/
theorem claim9_missing_key_error_form (fs : FS) (o : AnalyzerOracle) (fu : FileUpload)
    (et : String) (flds : List (String × JsonValue))
    (hext : extractText fs (getDocumentType fu.content_type) fu.file_path = .ok et)
    (hana : analyzeContent o et (getDocumentType fu.content_type) = .obj flds)
    (hmiss : flds.lookup "summary" = none ∨ flds.lookup "key_insights" = none ∨
      flds.lookup "questions_answered" = none) :
    (processFile fs o fu).document_type = getDocumentType fu.content_type
  ∧ (∃ key, (processFile fs o fu).summary
      = "Error processing document: " ++ ("'" ++ key ++ "'"))
  ∧ (processFile fs o fu).key_insights = ["Document processing failed"]
  ∧ (processFile fs o fu).questions_answered = ["Unable to analyze due to processing error"] := by
  have hbody : ∃ k : String, tryBody fs o (getDocumentType fu.content_type) fu.file_path
      = .error ("'" ++ k ++ "'") := by
    rcases hmiss with hm | hm | hm
    · refine ⟨"summary", ?_⟩
      unfold tryBody
      rw [hext]
      dsimp only
      rw [hana]
      simp [pyDictGetKey, hm]
    · rcases hs : flds.lookup "summary" with _ | sv
      · refine ⟨"summary", ?_⟩
        unfold tryBody
        rw [hext]
        dsimp only
        rw [hana]
        simp [pyDictGetKey, hs]
      · refine ⟨"key_insights", ?_⟩
        unfold tryBody
        rw [hext]
        dsimp only
        rw [hana]
        simp [pyDictGetKey, hs, hm]
    · rcases hs : flds.lookup "summary" with _ | sv
      · refine ⟨"summary", ?_⟩
        unfold tryBody
        rw [hext]
        dsimp only
        rw [hana]
        simp [pyDictGetKey, hs]
      · rcases hk : flds.lookup "key_insights" with _ | iv
        · refine ⟨"key_insights", ?_⟩
          unfold tryBody
          rw [hext]
          dsimp only
          rw [hana]
          simp [pyDictGetKey, hs, hk]
        · refine ⟨"questions_answered", ?_⟩
          unfold tryBody
          rw [hext]
          dsimp only
          rw [hana]
          simp [pyDictGetKey, hs, hk, hm]
  obtain ⟨k, hk⟩ := hbody
  have hne := getDocumentType_ne_empty fu.content_type
  have hpf : processFile fs o fu =
      { document_type := getDocumentType fu.content_type,
        summary := "Error processing document: " ++ ("'" ++ k ++ "'"),
        key_insights := ["Document processing failed"],
        questions_answered := ["Unable to analyze due to processing error"] } := by
    unfold processFile
    dsimp only
    rw [hk]
    dsimp only
    rw [if_neg hne]
  exact ⟨by rw [hpf], ⟨k, by rw [hpf]⟩, by rw [hpf], by rw [hpf]⟩

/-- C9 witness: a model response of exactly `"{}"`, whose parse lacks all
three keys; the caller receives the error-form record, not a fallback. -/
theorem claim9_missing_key_error_form_witness :
    extractText stubFS (getDocumentType "text/plain") "p" = .ok "hello"
  ∧ analyzeContent (stubOracle "\x7b\x7d") "hello" (getDocumentType "text/plain")
      = .obj []
  ∧ ([] : List (String × JsonValue)).lookup "summary" = none
  ∧ (∃ key, (processFile stubFS (stubOracle "\x7b\x7d")
      { filename := "f", content_type := "text/plain", file_size := 5,
        file_path := "p" }).summary
      = "Error processing document: " ++ ("'" ++ key ++ "'")) :=
  ⟨rfl, rfl, rfl,
   (claim9_missing_key_error_form stubFS (stubOracle "\x7b\x7d")
      { filename := "f", content_type := "text/plain", file_size := 5, file_path := "p" }
      "hello" [] rfl rfl (Or.inl rfl)).2.1⟩

/-- C7: for a parseable CSV file, the report text of `_process_csv` contains
the literal row count, the literal column count, every column name, each
per-column declared dtype line, the rendering of the first five rows
(`df.head().to_string()`), and — when numeric columns exist — the rendering
of the descriptive statistics (`describe().to_string()`). -/
theorem claim7_csv_report (fs : FS) (p : String) (df : DataFrame)
    (h : fs.readCsv p = .ok df) :
    occursIn (toString df.nrows) (processCsv fs p)
  ∧ occursIn (toString df.columns.length) (processCsv fs p)
  ∧ (∀ c ∈ df.columns, occursIn c (processCsv fs p))
  ∧ (∀ cd ∈ df.dtypes, occursIn ("- " ++ cd.1 ++ ": " ++ cd.2 ++ "\n") (processCsv fs p))
  ∧ occursIn df.headStr (processCsv fs p)
  ∧ (df.numericCols ≠ [] → occursIn df.describeStr (processCsv fs p)) := by
  have key : ∀ t : String,
      occursIn t ("CSV file with " ++ toString df.nrows ++ " rows and "
        ++ toString df.columns.length ++ " columns.\n"
        ++ "Columns: " ++ pyJoin ", " df.columns ++ "\n\n"
        ++ "Column data types:\n" ++ dtypesLines df.dtypes
        ++ "\nFirst 5 rows:\n" ++ df.headStr ++ "\n") →
      occursIn t (processCsv fs p) := by
    intro t ht
    unfold processCsv
    rw [h]
    dsimp only
    rw [foldl_dtypesLines]
    by_cases hn : df.numericCols.length > 0
    · rw [if_pos hn]
      exact occursIn_append_right _ _ _ (occursIn_append_right _ _ _
        (occursIn_append_right _ _ _ ht))
    · rw [if_neg hn]
      exact ht
  refine ⟨?_, ?_, ?_, ?_, ?_, ?_⟩
  · apply key
    repeat first
      | exact occursIn_append_left _ _ _ (occursIn_refl _)
      | apply occursIn_append_right _ _ _
  · apply key
    repeat first
      | exact occursIn_append_left _ _ _ (occursIn_refl _)
      | apply occursIn_append_right _ _ _
  · intro c hc
    have hsub := occursIn_pyJoin ", " c df.columns hc
    apply key
    repeat first
      | exact occursIn_append_left _ _ _ hsub
      | apply occursIn_append_right _ _ _
  · intro cd hcd
    have hsub := occursIn_dtypesLines cd df.dtypes hcd
    apply key
    repeat first
      | exact occursIn_append_left _ _ _ hsub
      | apply occursIn_append_right _ _ _
  · apply key
    repeat first
      | exact occursIn_append_left _ _ _ (occursIn_refl _)
      | apply occursIn_append_right _ _ _
  · intro hne0
    have hn : df.numericCols.length > 0 := List.length_pos.mpr hne0
    unfold processCsv
    rw [h]
    dsimp only
    rw [foldl_dtypesLines, if_pos hn]
    exact occursIn_append_right _ _ _ (occursIn_append_left _ _ _ (occursIn_refl _))

/-- C7 witness: the concrete 4-row, 2-column frame `sampleDF`. -/
theorem claim7_csv_report_witness :
    stubFS.readCsv "t.csv" = .ok sampleDF
  ∧ occursIn (toString sampleDF.nrows) (processCsv stubFS "t.csv")
  ∧ occursIn "b" (processCsv stubFS "t.csv") :=
  ⟨rfl, (claim7_csv_report stubFS "t.csv" sampleDF rfl).1,
   (claim7_csv_report stubFS "t.csv" sampleDF rfl).2.2.1 "b" (by decide)⟩

end DocProc
